import Mathlib

/-!
Verification of the deck-synchronization client and the add-on build script.

The Python sources are shallowly embedded: remote calls are modelled by
passing the response payload (positionally corresponding, as the remote
API documents) as an explicit argument, and each function that issues
writes returns the list of write actions it would send instead of
performing them.  Printed report lines are modelled as returned values.
-/

namespace SpanishAnki

/-- Python str.lower over the character data of a string. -/
def pyLower (s : String) : String := ⟨s.data.map Char.toLower⟩

/-- Python str.replace of the single character space by underscore. -/
def replaceSpaces (s : String) : String :=
  ⟨s.data.map fun c => if c = ' ' then '_' else c⟩

/-- The fixed model (schema object) name MODEL_NAME from the source. -/
def MODEL_NAME : String := "Spanish Pronunciation Model (EN->ES TTS)"

/-- The root deck name ROOT_DECK from the source. -/
def ROOT_DECK : String := "Spanish Pronunciation Trainer"

/-- The SUBDECKS list from the source. -/
def SUBDECKS : List String :=
  ["Phrases",
   "Verb Conjugations",
   "Help",
   "Numbers",
   "Preguntar (Questions)",
   "Responses",
   "Saludar (Greetings)",
   "Despedirse (Goodbyes)",
   "Dialogue",
   "Original Cards",
   "Classroom Objects",
   "Grammar (Tener & Plurals)",
   "Requests & Needs",
   "Feelings & Concepts",
   "Virtues & Abstract Words",
   "Miscellaneous",
   "Common Verbs & Phrases",
   "Math & Quantities",
   "Nationalities & Countries",
   "Professions",
   "Food & Culture",
   "Grammar (Articles & Gender)",
   "Pronunciation Practice",
   "Mini Dialogues"]

/-- The fields dict of a note: English, Spanish and Tags values. -/
structure NoteFields where
  English : String
  Spanish : String
  Tags : String
deriving DecidableEq

/-- The options dict of a note. -/
structure NoteOptions where
  allowDuplicate : Bool
deriving DecidableEq

/-- A note specification as sent to the remote store. -/
structure Note where
  deckName : String
  modelName : String
  fields : NoteFields
  options : NoteOptions
  tags : List String
deriving DecidableEq

/-- The note dict built inside the probe list of
filter_addable_notes_all_decks (the canAddNotesWithErrorDetail request). -/
def checkNote (deck_name en es : String) : Note :=
  { deckName := ROOT_DECK ++ "::" ++ deck_name
    modelName := MODEL_NAME
    fields :=
      { English := en
        Spanish := es
        Tags := replaceSpaces (pyLower deck_name) }
    options := { allowDuplicate := false }
    tags := [replaceSpaces (pyLower deck_name)] }

/-- The note dict built inside the addable branch of
filter_addable_notes_all_decks (the record later submitted by addNotes). -/
def insertNote (deck_name en es : String) : Note :=
  { deckName := ROOT_DECK ++ "::" ++ deck_name
    modelName := MODEL_NAME
    fields :=
      { English := en
        Spanish := es
        Tags := replaceSpaces (pyLower deck_name) }
    options := { allowDuplicate := false }
    tags := [replaceSpaces (pyLower deck_name)] }

/-- A per-note result object of canAddNotesWithErrorDetail, carrying an
optional error field (absent and null are both modelled by none, per the
Python dict.get behaviour). -/
structure ErrDetail where
  error : Option String
deriving DecidableEq

/-- A per-note check result: null, or an error-detail object. -/
abbrev CheckResult := Option ErrDetail

/-- Python truthiness of an optional string: None and the empty string are
falsy, every other string is truthy. -/
def truthyStr : Option String → Bool
  | none => false
  | some s => s != ""

/-- The addable test of the classification loop:
res is None or not res.get of the error key. -/
def isAddable : CheckResult → Bool
  | none => true
  | some obj => !(truthyStr obj.error)

/-- The inner classification loop of filter_addable_notes_all_decks over
one category: walks the zip of candidate pairs with their check results,
appending an insertion note for each addable candidate and incrementing
the skipped counter otherwise. -/
def classifyCards (deck_name : String) :
    List ((String × String) × CheckResult) → List Note × Nat
  | [] => ([], 0)
  | (c, res) :: rest =>
    let acc := classifyCards deck_name rest
    if isAddable res then (insertNote deck_name c.1 c.2 :: acc.1, acc.2)
    else (acc.1, acc.2 + 1)

/-- The probe lists of the batched duplicate-check request: one list of
check notes per category, one note per candidate pair, in catalog order. -/
def checkProbes (decks_data : List (String × List (String × String))) :
    List (List Note) :=
  decks_data.map fun p => p.2.map fun c => checkNote p.1 c.1 c.2

/-- The duplicate-check routine: given the catalog and the positionally
corresponding per-category result lists of the single batched call,
partition each category into its addable notes and a skipped count. -/
def filter_addable_notes_all_decks
    (decks_data : List (String × List (String × String)))
    (results : List (List CheckResult)) :
    List (String × (List Note × Nat)) :=
  (decks_data.zip results).map fun p =>
    (p.1.1, classifyCards p.1.1 (p.1.2.zip p.2))

/-- The multi-call action list built by add_notes_all_decks: one addNotes
group per category whose addable list is non-empty. -/
def add_notes_actions (filtered : List (String × (List Note × Nat))) :
    List (List Note) :=
  (filtered.filter fun p => !p.2.1.isEmpty).map fun p => p.2.1

/-- The batched insertion routine, modelled as the per-category report
lines it prints: if no category has addable notes it returns early with
no per-category line; otherwise it zips the filtered map with the
positional results of the batched call and prints, per paired entry, the
category, the length of its addable list and its skipped count. -/
def add_notes_all_decks {α : Type}
    (filtered : List (String × (List Note × Nat))) (results : List α) :
    List (String × Nat × Nat) :=
  if (add_notes_actions filtered).isEmpty then []
  else (filtered.zip results).map fun p => (p.1.1, p.1.2.1.length, p.1.2.2)

/-- A response of the remote endpoint: an optional result payload and an
error field that is a string or null. -/
structure ApiResponse (α : Type) where
  result : Option α
  error : Option String
deriving DecidableEq

/-- The request envelope: raises (Except.error) with the remote message
when the error field is truthy, otherwise returns the result field. -/
def invoke {α : Type} (resp : ApiResponse α) : Except String (Option α) :=
  if truthyStr resp.error then Except.error (resp.error.getD "")
  else Except.ok resp.result

/-- A container- or schema-creation write issued to the remote store. -/
inductive ApiWrite
  | createModel (modelName : String)
  | createDeck (deck : String)
deriving DecidableEq

/-- The schema provisioning step: creates the model only when its name is
not already listed by the remote store. -/
def ensure_model_exists (existing_models : List String) : List ApiWrite :=
  if MODEL_NAME ∈ existing_models then []
  else [ApiWrite.createModel MODEL_NAME]

/-- The container provisioning step: computes the createDeck actions for
the qualified subdeck names not already present, and issues one batched
multi call carrying them, or no call at all when none is missing. -/
def create_decks (existing : List String) : Option (List ApiWrite) :=
  let actions :=
    (SUBDECKS.filter fun subdeck =>
        !(existing.contains (ROOT_DECK ++ "::" ++ subdeck))).map
      fun subdeck => ApiWrite.createDeck (ROOT_DECK ++ "::" ++ subdeck)
  if actions.isEmpty then none else some actions

/-- One step of the orchestrator main, in source order. -/
inductive RunStep
  | ensureModel
  | createDecksStep
  | duplicateCheck
  | insertNotes
  | reportStep
deriving DecidableEq

/-- The orchestrator states of the run. -/
inductive RunState
  | Idle
  | SchemaEnsured
  | ContainersEnsured
  | Checked
  | Inserted
  | Reported
deriving DecidableEq

/-- The sequence of steps main performs, in the order they appear in the
source: ensure_model_exists, create_decks, filter_addable_notes_all_decks,
add_notes_all_decks, final summary report. -/
def main_trace : List RunStep :=
  [RunStep.ensureModel, RunStep.createDecksStep, RunStep.duplicateCheck,
   RunStep.insertNotes, RunStep.reportStep]

/-- The state reached after completing a step. -/
def stepState : RunState → RunStep → RunState
  | _, RunStep.ensureModel => RunState.SchemaEnsured
  | _, RunStep.createDecksStep => RunState.ContainersEnsured
  | _, RunStep.duplicateCheck => RunState.Checked
  | _, RunStep.insertNotes => RunState.Inserted
  | _, RunStep.reportStep => RunState.Reported

/-- Rank of a state in the linear progression. -/
def stateRank : RunState → Nat
  | RunState.Idle => 0
  | RunState.SchemaEnsured => 1
  | RunState.ContainersEnsured => 2
  | RunState.Checked => 3
  | RunState.Inserted => 4
  | RunState.Reported => 5

/-- The required source files of the add-on build (build_addon.py). -/
def required_files : List String :=
  ["__init__.py", "manifest.json", "config.json", "logger.py"]

/-- Python repr of a list of strings, as interpolated into the
FileNotFoundError message of validate_source_directory. -/
def pyReprStrList (l : List String) : String :=
  "[" ++ String.intercalate ", " (l.map fun s => "\x27" ++ s ++ "\x27") ++ "]"

/-- Validation of the packaging source directory against a file system
(modelled as the list of existing paths): errors when the source
directory is missing, then when any required file is missing inside it,
with the Python error messages. -/
def validate_source_directory (fs : List String) (source_dir : String) :
    Except String Unit :=
  if !(fs.contains source_dir) then
    Except.error ("Source directory not found: " ++ source_dir)
  else
    let missing_files := required_files.filter fun file =>
      !(fs.contains (source_dir ++ "/" ++ file))
    if !missing_files.isEmpty then
      Except.error ("Missing required files: " ++ pyReprStrList missing_files)
    else Except.ok ()

/-- The build entry point: validates the source directory first and, on a
validation error, aborts with that error before any packaging step runs;
the packaging argument abstracts the version bump, package creation,
verification and cleanup steps that follow a successful validation. -/
def build (fs : List String) (source_dir : String)
    (packaging : Unit → Except String String) : Except String String :=
  match validate_source_directory fs source_dir with
  | Except.error e => Except.error e
  | Except.ok _ => packaging ()

/-- Spec-side predicate, written after the words of the claim: a
candidate is skipped only when its check result is a non-null object
whose error field is a truthy (present, non-null, non-empty) string. -/
def c9_skip_spec : CheckResult → Bool
  | none => false
  | some obj =>
    match obj.error with
    | none => false
    | some s => !(s == "")

/-- Spec-side predicate, written after the words of the claim: a
candidate is addable when its check result is null, or an object whose
error field is absent, null, or the empty string. -/
def c9_addable_spec : CheckResult → Bool
  | none => true
  | some obj =>
    match obj.error with
    | none => true
    | some s => s == ""

/-- The classification loop equals an order-preserving filter of the
zipped candidates: addable notes come from the candidates whose result
passes isAddable, in order, and skipped counts the rest. -/
lemma classifyCards_eq (deck_name : String)
    (pairs : List ((String × String) × CheckResult)) :
    classifyCards deck_name pairs =
      (((pairs.filter fun pr => isAddable pr.2).map
          fun pr => insertNote deck_name pr.1.1 pr.1.2),
       (pairs.filter fun pr => !(isAddable pr.2)).length) := by
  induction pairs with
  | nil => rfl
  | cons hd tl ih =>
    obtain ⟨c, res⟩ := hd
    cases h : isAddable res <;>
      simp [classifyCards, h, ih]

/-- The classification loop sends every candidate to exactly one side:
addable length plus skipped count equals the number of candidates. -/
lemma classifyCards_len (deck_name : String)
    (pairs : List ((String × String) × CheckResult)) :
    (classifyCards deck_name pairs).1.length +
      (classifyCards deck_name pairs).2 = pairs.length := by
  induction pairs with
  | nil => rfl
  | cons hd tl ih =>
    obtain ⟨c, res⟩ := hd
    cases h : isAddable res <;>
      simp [classifyCards, h] <;> omega

/-- Indexing a zip at a position where both lists are defined. -/
lemma getElem_zip_some {α β : Type} {l₁ : List α} {l₂ : List β} {i : Nat}
    {a : α} {b : β} (h₁ : l₁[i]? = some a) (h₂ : l₂[i]? = some b) :
    (l₁.zip l₂)[i]? = some (a, b) := by
  induction l₁ generalizing l₂ i with
  | nil => simp at h₁
  | cons x xs ih =>
    cases l₂ with
    | nil => simp at h₂
    | cons y ys =>
      cases i with
      | zero =>
        simp at h₁ h₂
        simp [h₁, h₂]
      | succ n =>
        simpa using ih (by simpa using h₁) (by simpa using h₂)

/-- Mapping a function of the first components over a zip is mapping it
over the first list truncated to the length of the second. -/
lemma map_fst_zip_take {α β γ : Type} (f : α → γ) :
    ∀ (l₁ : List α) (l₂ : List β),
      ((l₁.zip l₂).map fun p => f p.1) = (l₁.take l₂.length).map f
  | [], _ => by simp
  | _ :: _, [] => by simp
  | x :: xs, y :: ys => by
    simp [map_fst_zip_take f xs ys]

/-- C1: for every category, the duplicate-check partitions each candidate
pair into exactly one of addable or skipped, so the addable length plus
the skipped count equals the number of candidate pairs of the category;
hence the addable count equals candidates minus skipped. -/
theorem filter_addable_partitions
    (decks_data : List (String × List (String × String)))
    (results : List (List CheckResult))
    (hlen : List.Forall₂ (fun p r => p.2.length = r.length)
      decks_data results) :
    List.Forall₂
      (fun p out => out.1 = p.1 ∧ out.2.1.length + out.2.2 = p.2.length)
      decks_data (filter_addable_notes_all_decks decks_data results) := by
  induction hlen with
  | nil =>
    simp [filter_addable_notes_all_decks]
  | cons h t ih =>
    rename_i p r l₁ l₂
    refine List.Forall₂.cons ⟨rfl, ?_⟩ ih
    have hz : (p.2.zip r).length = p.2.length := by
      simp [List.length_zip, h]
    rw [← hz]
    exact classifyCards_len p.1 (p.2.zip r)

/-- C1 witness: the partition property at a concrete one-category catalog
with one duplicate and one addable candidate. -/
theorem filter_addable_partitions_witness :
    List.Forall₂
      (fun (p : String × List (String × String)) (r : List CheckResult) =>
        p.2.length = r.length)
      [("Greetings", [("hello", "hola"), ("goodbye", "adios")])]
      [[(some { error := some "duplicate" } : CheckResult), none]] ∧
    List.Forall₂
      (fun p out => out.1 = p.1 ∧ out.2.1.length + out.2.2 = p.2.length)
      [("Greetings", [("hello", "hola"), ("goodbye", "adios")])]
      (filter_addable_notes_all_decks
        [("Greetings", [("hello", "hola"), ("goodbye", "adios")])]
        [[(some { error := some "duplicate" } : CheckResult), none]]) :=
  ⟨List.Forall₂.cons rfl List.Forall₂.nil,
   filter_addable_partitions _ _ (List.Forall₂.cons rfl List.Forall₂.nil)⟩

/-- C4: the duplicate-check preserves within-category candidate order:
the probe list of the category at position i is the map of checkNote over
its candidate pairs in order, and the output entry at position i pairs
the category with the addable notes of exactly the candidates whose
positionally corresponding result passes the check, in original order,
and with the count of the remaining candidates as skipped. -/
theorem filter_addable_order
    (decks_data : List (String × List (String × String)))
    (results : List (List CheckResult)) (i : Nat) (d : String)
    (cards : List (String × String)) (res : List CheckResult)
    (h1 : decks_data[i]? = some (d, cards))
    (h2 : results[i]? = some res) :
    (checkProbes decks_data)[i]? =
      some (cards.map fun c => checkNote d c.1 c.2) ∧
    (filter_addable_notes_all_decks decks_data results)[i]? =
      some (d,
        (((cards.zip res).filter fun pr => isAddable pr.2).map
            fun pr => insertNote d pr.1.1 pr.1.2,
         ((cards.zip res).filter fun pr => !(isAddable pr.2)).length)) := by
  constructor
  · rw [checkProbes, List.getElem?_map, h1]
    rfl
  · rw [filter_addable_notes_all_decks, List.getElem?_map,
      getElem_zip_some h1 h2]
    simp [classifyCards_eq]

/-- C4 witness: order preservation at a concrete one-category catalog. -/
theorem filter_addable_order_witness :
    ([("Greetings", [("hello", "hola"), ("goodbye", "adios")])] :
        List (String × List (String × String)))[0]? =
      some ("Greetings", [("hello", "hola"), ("goodbye", "adios")]) ∧
    ([[(some { error := some "duplicate" } : CheckResult), none]] :
        List (List CheckResult))[0]? =
      some [(some { error := some "duplicate" } : CheckResult), none] ∧
    ((checkProbes [("Greetings", [("hello", "hola"), ("goodbye", "adios")])])[0]? =
      some ([("hello", "hola"), ("goodbye", "adios")].map
        fun c => checkNote "Greetings" c.1 c.2) ∧
    (filter_addable_notes_all_decks
        [("Greetings", [("hello", "hola"), ("goodbye", "adios")])]
        [[(some { error := some "duplicate" } : CheckResult), none]])[0]? =
      some ("Greetings",
        ((([("hello", "hola"), ("goodbye", "adios")].zip
              [(some { error := some "duplicate" } : CheckResult), none]).filter
            fun pr => isAddable pr.2).map
          fun pr => insertNote "Greetings" pr.1.1 pr.1.2,
         (([("hello", "hola"), ("goodbye", "adios")].zip
              [(some { error := some "duplicate" } : CheckResult), none]).filter
            fun pr => !(isAddable pr.2)).length))) :=
  ⟨rfl, rfl,
   filter_addable_order _ _ 0 "Greetings" _ _ rfl rfl⟩

/-- The duplicate-check output keeps every category key of the catalog in
order, provided the batched response has at least one per-category result
list for each category. -/
lemma filter_addable_keys
    (decks_data : List (String × List (String × String)))
    (results : List (List CheckResult))
    (h : decks_data.length ≤ results.length) :
    ((filter_addable_notes_all_decks decks_data results).map fun p => p.1) =
      decks_data.map fun p => p.1 := by
  induction decks_data generalizing results with
  | nil => simp [filter_addable_notes_all_decks]
  | cons x xs ih =>
    cases results with
    | nil => simp at h
    | cons y ys =>
      have htail := ih ys (by simpa using h)
      simp only [filter_addable_notes_all_decks, List.zip_cons_cons,
        List.map_cons] at htail ⊢
      simp [htail]

/-- C5: a category with zero candidate pairs still appears in the
duplicate-check output, with an empty addable list and zero skipped, and
no category of the catalog is omitted from the output mapping. -/
theorem filter_addable_empty_category
    (decks_data : List (String × List (String × String)))
    (results : List (List CheckResult))
    (h : decks_data.length ≤ results.length) :
    ((filter_addable_notes_all_decks decks_data results).map fun p => p.1) =
      (decks_data.map fun p => p.1) ∧
    ∀ (i : Nat) (d : String),
      decks_data[i]? = some (d, ([] : List (String × String))) →
      (filter_addable_notes_all_decks decks_data results)[i]? =
        some (d, (([] : List Note), (0 : Nat))) := by
  refine ⟨filter_addable_keys decks_data results h, ?_⟩
  intro i d hi
  have hlt : i < decks_data.length := by
    rcases List.getElem?_eq_some.mp hi with ⟨hl, _⟩
    exact hl
  have hr : results[i]? = some results[i] :=
    List.getElem?_eq_getElem (Nat.lt_of_lt_of_le hlt h)
  rw [filter_addable_notes_all_decks, List.getElem?_map,
    getElem_zip_some hi hr]
  rfl

/-- C5 witness: a concrete two-category catalog whose first category has
zero candidates keeps both entries, the first one empty with zero
skipped. -/
theorem filter_addable_empty_category_witness :
    ([("Empty", ([] : List (String × String))), ("Greetings", [("hello", "hola")])] :
        List (String × List (String × String))).length ≤
      ([[], [none]] : List (List CheckResult)).length ∧
    (((filter_addable_notes_all_decks
        [("Empty", ([] : List (String × String))), ("Greetings", [("hello", "hola")])]
        [[], [none]]).map fun p => p.1) =
      ([("Empty", ([] : List (String × String))), ("Greetings", [("hello", "hola")])].map
        fun p => p.1) ∧
    ∀ (i : Nat) (d : String),
      ([("Empty", ([] : List (String × String))), ("Greetings", [("hello", "hola")])] :
          List (String × List (String × String)))[i]? =
        some (d, ([] : List (String × String))) →
      (filter_addable_notes_all_decks
        [("Empty", ([] : List (String × String))), ("Greetings", [("hello", "hola")])]
        [[], [none]])[i]? = some (d, (([] : List Note), (0 : Nat)))) :=
  ⟨by decide,
   filter_addable_empty_category _ _ (by decide)⟩

/-- C2: provisioning is idempotent: when the model name is already listed
remotely, ensure_model_exists issues no createModel write, and when every
qualified subdeck name is already present, create_decks issues no batched
creation call (hence no createDeck action) at all. -/
theorem provisioning_idempotent (models existing : List String)
    (hm : MODEL_NAME ∈ models)
    (hd : ∀ subdeck ∈ SUBDECKS, (ROOT_DECK ++ "::" ++ subdeck) ∈ existing) :
    ensure_model_exists models = [] ∧ create_decks existing = none := by
  constructor
  · simp [ensure_model_exists, hm]
  · rw [create_decks]
    simpa using hd

/-- C2 witness: the remote state produced by one provisioning run (the
model name listed, every qualified subdeck name present) receives zero
creation writes from a second run. -/
theorem provisioning_idempotent_witness :
    MODEL_NAME ∈ ([ MODEL_NAME ] : List String) ∧
    (∀ subdeck ∈ SUBDECKS,
      (ROOT_DECK ++ "::" ++ subdeck) ∈
        SUBDECKS.map fun s => ROOT_DECK ++ "::" ++ s) ∧
    (ensure_model_exists [ MODEL_NAME ] = [] ∧
      create_decks (SUBDECKS.map fun s => ROOT_DECK ++ "::" ++ s) = none) :=
  ⟨List.mem_singleton.mpr rfl,
   fun _ hs => List.mem_map_of_mem _ hs,
   provisioning_idempotent _ _ (List.mem_singleton.mpr rfl)
     (fun _ hs => List.mem_map_of_mem _ hs)⟩

/-- C3 counterexample: a response whose error field is the non-null empty
string makes invoke return the result instead of raising, so raising is
not equivalent to the error field being non-null. -/
theorem invoke_nonnull_error_counterexample :
    (ApiResponse.mk (none : Option Unit) (some "")).error ≠ none ∧
    invoke (ApiResponse.mk (none : Option Unit) (some "")) =
      Except.ok (none : Option Unit) :=
  ⟨by simp, rfl⟩

/-- C3 amended: invoke raises an error carrying the remote message
exactly when the error field is a truthy (non-null and non-empty) string;
when the error field is null or the empty string it returns the result
field of the response. -/
theorem invoke_result_or_truthy_error {α : Type} (resp : ApiResponse α) :
    (∃ s, resp.error = some s ∧ s ≠ "" ∧ invoke resp = Except.error s) ∨
    ((resp.error = none ∨ resp.error = some "") ∧
      invoke resp = Except.ok resp.result) := by
  obtain ⟨r, e⟩ := resp
  cases e with
  | none => exact Or.inr ⟨Or.inl rfl, rfl⟩
  | some s =>
    by_cases h : s = ""
    · subst h
      exact Or.inr ⟨Or.inr rfl, rfl⟩
    · refine Or.inl ⟨s, rfl, h, ?_⟩
      simp [invoke, truthyStr, h]

/-- C6 counterexample: with a first category having no addable notes and
a second category submitting one note, the batched-insertion report pairs
the single result with the first category and prints no line at all for
the second category, so not every category is reported. -/
theorem add_notes_report_counterexample :
    add_notes_all_decks
        [("A", (([] : List Note), 2)), ("B", ([insertNote "b" "x" "y"], 0))]
        [()] = [("A", 0, 2)] ∧
    (add_notes_actions
        [("A", (([] : List Note), 2)),
         ("B", ([insertNote "b" "x" "y"], 0))]).length = 1 ∧
    "B" ∉ (add_notes_all_decks
        [("A", (([] : List Note), 2)), ("B", ([insertNote "b" "x" "y"], 0))]
        [()]).map fun p => p.1 := by
  refine ⟨rfl, rfl, ?_⟩
  decide

/-- C6 amended: the insertion step prints one line per category for the
first k categories of the catalog order, where k is the number of
categories with a non-empty addable list (every category, when all
addable lists are non-empty); each printed line carries that category,
the length of its addable list as added, and its skipped count from the
duplicate-check; no grand total line is produced. -/
theorem add_notes_report_amended {α : Type}
    (filtered : List (String × (List Note × Nat))) (results : List α)
    (h : results.length = (add_notes_actions filtered).length) :
    add_notes_all_decks filtered results =
      (filtered.take (add_notes_actions filtered).length).map
        fun p => (p.1, p.2.1.length, p.2.2) := by
  rw [add_notes_all_decks]
  by_cases he : (add_notes_actions filtered).isEmpty
  · rw [if_pos he]
    have hz : (add_notes_actions filtered).length = 0 := by
      simpa using congrArg List.length (List.isEmpty_iff.mp he)
    simp [hz]
  · rw [if_neg he, ← h]
    exact map_fst_zip_take (fun q => (q.1, q.2.1.length, q.2.2))
      filtered results

/-- C6 amended witness: the amended report shape at the concrete input of
the counterexample. -/
theorem add_notes_report_amended_witness :
    ([()] : List Unit).length =
      (add_notes_actions
        [("A", (([] : List Note), 2)),
         ("B", ([insertNote "b" "x" "y"], 0))]).length ∧
    add_notes_all_decks
        [("A", (([] : List Note), 2)), ("B", ([insertNote "b" "x" "y"], 0))]
        ([()] : List Unit) =
      (([("A", (([] : List Note), 2)),
         ("B", ([insertNote "b" "x" "y"], 0))].take
          (add_notes_actions
            [("A", (([] : List Note), 2)),
             ("B", ([insertNote "b" "x" "y"], 0))]).length).map
        fun p => (p.1, p.2.1.length, p.2.2)) :=
  ⟨rfl, add_notes_report_amended _ _ rfl⟩

/-- C7: the orchestrator run is linear: the state sequence of main is
exactly Idle, SchemaEnsured, ContainersEnsured, Checked, Inserted,
Reported, strictly increasing in rank (no transition back), and the
schema step precedes container creation, which precedes the duplicate
check, which precedes insertion, which precedes the final report. -/
theorem main_linear_states :
    List.scanl stepState RunState.Idle main_trace =
      [RunState.Idle, RunState.SchemaEnsured, RunState.ContainersEnsured,
       RunState.Checked, RunState.Inserted, RunState.Reported] ∧
    List.Pairwise (fun a b => stateRank a < stateRank b)
      (List.scanl stepState RunState.Idle main_trace) ∧
    main_trace.indexOf RunStep.ensureModel <
      main_trace.indexOf RunStep.createDecksStep ∧
    main_trace.indexOf RunStep.createDecksStep <
      main_trace.indexOf RunStep.duplicateCheck ∧
    main_trace.indexOf RunStep.duplicateCheck <
      main_trace.indexOf RunStep.insertNotes ∧
    main_trace.indexOf RunStep.insertNotes <
      main_trace.indexOf RunStep.reportStep := by
  refine ⟨rfl, ?_, ?_, ?_, ?_, ?_⟩ <;> decide

/-- C8: when the packaging source directory is missing, or any required
file is missing inside it, validation fails with a FileNotFoundError-style
message naming the offending directory path, or listing exactly the
offending required files, and the build returns that error without ever
running the packaging steps. -/
theorem validate_source_aborts_build
    (fs : List String) (source_dir : String)
    (packaging : Unit → Except String String)
    (hbad : source_dir ∉ fs ∨
      ∃ file ∈ required_files, (source_dir ++ "/" ++ file) ∉ fs) :
    ∃ msg, validate_source_directory fs source_dir = Except.error msg ∧
      build fs source_dir packaging = Except.error msg ∧
      (source_dir ∉ fs → msg = "Source directory not found: " ++ source_dir) ∧
      (source_dir ∈ fs →
        ∃ missing, missing ≠ [] ∧
          (∀ file, file ∈ missing ↔
            (file ∈ required_files ∧ (source_dir ++ "/" ++ file) ∉ fs)) ∧
          msg = "Missing required files: " ++ pyReprStrList missing) := by
  by_cases hdir : source_dir ∈ fs
  · have hx : ∃ file ∈ required_files, (source_dir ++ "/" ++ file) ∉ fs := by
      rcases hbad with hc | hx
      · exact absurd hdir hc
      · exact hx
    set missing := required_files.filter fun file =>
      !(fs.contains (source_dir ++ "/" ++ file)) with hmdef
    have hmem : ∀ file, file ∈ missing ↔
        (file ∈ required_files ∧ (source_dir ++ "/" ++ file) ∉ fs) := by
      intro file
      simp [hmdef, List.mem_filter]
    have hne : missing ≠ [] := by
      obtain ⟨f, hf, hnf⟩ := hx
      intro hnil
      have hm := (hmem f).mpr ⟨hf, hnf⟩
      rw [hnil] at hm
      simp at hm
    have hval : validate_source_directory fs source_dir =
        Except.error ("Missing required files: " ++ pyReprStrList missing) := by
      have hcont : fs.contains source_dir = true := by simpa using hdir
      have hie : missing.isEmpty = false := by
        cases hmm : missing with
        | nil => exact absurd hmm hne
        | cons a l => simp [hmm]
      rw [validate_source_directory]
      rw [hcont]
      simp only [Bool.not_true, Bool.false_eq_true, if_false, ← hmdef,
        hie, Bool.not_false, if_true]
    refine ⟨"Missing required files: " ++ pyReprStrList missing,
      hval, ?_, fun hn => absurd hdir hn, fun _ => ⟨missing, hne, hmem, rfl⟩⟩
    rw [build, hval]
  · have hval : validate_source_directory fs source_dir =
        Except.error ("Source directory not found: " ++ source_dir) := by
      have hcont : fs.contains source_dir = false := by simpa using hdir
      rw [validate_source_directory, hcont]
      rfl
    refine ⟨"Source directory not found: " ++ source_dir,
      hval, ?_, fun _ => rfl, fun hm => absurd hm hdir⟩
    rw [build, hval]

/-- C8 witness: a concrete file system containing the source directory
but missing the required file config.json makes validation and build
fail as the theorem states. -/
theorem validate_source_aborts_build_witness :
    (("addon" : String) ∉
        (["addon", "addon/__init__.py", "addon/manifest.json",
          "addon/logger.py"] : List String) ∨
      ∃ file ∈ required_files, ("addon" ++ "/" ++ file) ∉
        (["addon", "addon/__init__.py", "addon/manifest.json",
          "addon/logger.py"] : List String)) ∧
    ∃ msg,
      validate_source_directory
          ["addon", "addon/__init__.py", "addon/manifest.json",
           "addon/logger.py"] "addon" = Except.error msg ∧
      build
          ["addon", "addon/__init__.py", "addon/manifest.json",
           "addon/logger.py"] "addon"
          (fun _ => Except.ok "pkg") = Except.error msg ∧
      (("addon" : String) ∉
          (["addon", "addon/__init__.py", "addon/manifest.json",
            "addon/logger.py"] : List String) →
        msg = "Source directory not found: " ++ "addon") ∧
      (("addon" : String) ∈
          (["addon", "addon/__init__.py", "addon/manifest.json",
            "addon/logger.py"] : List String) →
        ∃ missing, missing ≠ [] ∧
          (∀ file, file ∈ missing ↔
            (file ∈ required_files ∧ ("addon" ++ "/" ++ file) ∉
              (["addon", "addon/__init__.py", "addon/manifest.json",
                "addon/logger.py"] : List String))) ∧
          msg = "Missing required files: " ++ pyReprStrList missing) :=
  ⟨Or.inr ⟨"config.json", by decide, by decide⟩,
   validate_source_aborts_build _ _ _
     (Or.inr ⟨"config.json", by decide, by decide⟩)⟩

/-- C9: the classification of the duplicate-check counts a candidate as
skipped exactly when its result is a non-null object whose error field is
a present, non-null, non-empty string, and makes a candidate addable
exactly when its result is null or carries an absent, null, or empty
error field, keeping the addable candidates in order. -/
theorem classify_error_truthiness (deck_name : String)
    (pairs : List ((String × String) × CheckResult)) :
    (classifyCards deck_name pairs).2 =
      (pairs.filter fun pr => c9_skip_spec pr.2).length ∧
    (classifyCards deck_name pairs).1 =
      (pairs.filter fun pr => c9_addable_spec pr.2).map
        fun pr => insertNote deck_name pr.1.1 pr.1.2 := by
  have hskip : ∀ pr : (String × String) × CheckResult,
      (!(isAddable pr.2)) = c9_skip_spec pr.2 := by
    rintro ⟨c, _ | ⟨_ | s⟩⟩ <;>
      simp [isAddable, truthyStr, c9_skip_spec, bne]
  have hadd : ∀ pr : (String × String) × CheckResult,
      isAddable pr.2 = c9_addable_spec pr.2 := by
    rintro ⟨c, _ | ⟨_ | s⟩⟩ <;>
      simp [isAddable, truthyStr, c9_addable_spec, bne]
  rw [classifyCards_eq]
  constructor
  · rw [List.filter_congr fun x _ => hskip x]
  · rw [List.filter_congr fun x _ => hadd x]

/-- C10: the note specification built for the duplicate-check probe and
the one built for insertion are identical; each sets
options.allowDuplicate to false, carries exactly one tag, equal to the
category name lower-cased with spaces replaced by underscores, and holds
that same string in its Tags field. -/
theorem check_insert_note_identical (deck_name en es : String) :
    checkNote deck_name en es = insertNote deck_name en es ∧
    (checkNote deck_name en es).options.allowDuplicate = false ∧
    (checkNote deck_name en es).tags =
      [replaceSpaces (pyLower deck_name)] ∧
    (checkNote deck_name en es).tags.length = 1 ∧
    (checkNote deck_name en es).fields.Tags =
      replaceSpaces (pyLower deck_name) :=
  ⟨rfl, rfl, rfl, rfl, rfl⟩

end SpanishAnki
